import Mathlib

/-!
Shallow embedding of the signal scorer of `spx_dashboard.py`
(`generate_signals`, lines 80-113) and verification of the spec's claims
about it.  Python floats are modelled as rationals; the dataframe handed
to `generate_signals` is modelled as a list of rows carrying the columns
the function reads; the out-of-range `iloc` access that raises in pandas
is modelled by an `Option` result.
-/

/-- One row of the indicator-augmented dataframe: the columns read by
`generate_signals` (`Close`, `EMA_Fast`, `EMA_Slow`, `ATR`, `RSI`, `MACD`). -/
structure Row where
  Close : ℚ
  EMA_Fast : ℚ
  EMA_Slow : ℚ
  ATR : ℚ
  RSI : ℚ
  MACD : ℚ
  deriving Repr, DecidableEq

/-- User-configurable parameters read by `generate_signals`
(the `risk_tolerance` slider; the gating thresholds are literals in the code). -/
structure Config where
  risk_tolerance : ℚ
  deriving Repr, DecidableEq

/-- The closed label set of the spec's data model.  The code emits only
`LONG`, `LONG_Cautious`, `SHORT`, `SHORT_Cautious` and `DO_NOT_TRADE`
(as emoji-decorated strings); `NEUTRAL` is in the spec's set but has no
corresponding string in the code. -/
inductive Signal where
  | LONG
  | LONG_Cautious
  | SHORT
  | SHORT_Cautious
  | NEUTRAL
  | DO_NOT_TRADE
  deriving Repr, DecidableEq

/-- Models the Python substring test `"LONG" in signal`: of the strings the
code builds, exactly the two LONG-side labels contain `"LONG"`. -/
def Signal.containsLONG : Signal → Bool
  | .LONG => true
  | .LONG_Cautious => true
  | _ => false

/-- The five-tuple returned by `generate_signals`; `entry`, `target` and
`invalidation` are `None` on the gated branch. -/
structure SignalResult where
  signal : Signal
  conf : String
  entry : Option ℚ
  target : Option ℚ
  invalidation : Option ℚ
  deriving Repr, DecidableEq

/-- Line 82: `recent_return = (latest["Close"] - df["Close"].iloc[-2]) / df["Close"].iloc[-2]`. -/
def recent_return (latest prev : Row) : ℚ :=
  (latest.Close - prev.Close) / prev.Close

/-- Line 90: `do_not_trade = volatility_high or abs(recent_return) < 0.0003`,
with `volatility_high = latest["ATR"] / latest["Close"] > 0.005` (line 85). -/
def do_not_trade (latest prev : Row) : Prop :=
  latest.ATR / latest.Close > 5/1000 ∨ |recent_return latest prev| < 3/10000

instance (latest prev : Row) : Decidable (do_not_trade latest prev) :=
  instDecidableOr

/-- Line 98's condition `forecast and forecast['yhat'].iloc[-1] > latest["Close"]`,
with the forecast argument modelled by the last `yhat` value it carries (or
`none` when the forecast is unavailable).  This reads the bare truthiness
test as `forecast is not None` (the test the rest of the file uses, lines
169 and 184); in actual pandas, evaluating the truthiness of a present
forecast dataframe raises `ValueError` before the comparison runs, so this
totalized comparison is exact only for `none` — the raising behaviour is
modelled separately by `generate_signals_pandas` below. -/
def forecastBullish (forecast : Option ℚ) (close : ℚ) : Prop :=
  match forecast with
  | some yhat => yhat > close
  | none => False

instance (forecast : Option ℚ) (close : ℚ) : Decidable (forecastBullish forecast close) :=
  match forecast with
  | some yhat => inferInstanceAs (Decidable (yhat > close))
  | none => inferInstanceAs (Decidable False)

/-- Lines 94-98: the four-term integer score. -/
def score (latest prev : Row) (forecast : Option ℚ) : ℤ :=
  (if latest.EMA_Fast > latest.EMA_Slow then (1 : ℤ) else -1)
  + (if recent_return latest prev > 0 then 1 else -1)
  + (if latest.MACD > 0 then 1 else -1)
  + (if forecastBullish forecast latest.Close then 1 else -1)

/-- Lines 100-107: the score-to-(label, confidence) step function. -/
def label (s : ℤ) : Signal × String :=
  if s ≥ 3 then (.LONG, "High")
  else if s ≥ 1 then (.LONG_Cautious, "Medium")
  else if s ≤ -3 then (.SHORT, "High")
  else (.SHORT_Cautious, "Medium")

/-- Lines 84-113 applied to the last two rows: the gate, the score, the
label and the price levels (entry, `target = entry ± atr_adj`,
`invalidation = entry ∓ atr_adj * 0.5`). -/
def signalCore (cfg : Config) (latest prev : Row) (forecast : Option ℚ) : SignalResult :=
  if do_not_trade latest prev then
    ⟨.DO_NOT_TRADE, "High volatility or choppy", none, none, none⟩
  else
    let sc := label (score latest prev forecast)
    let entry := latest.Close
    let atr_adj := latest.ATR * cfg.risk_tolerance
    let target := if sc.1.containsLONG then entry + atr_adj else entry - atr_adj
    let invalidation := if sc.1.containsLONG then entry - atr_adj * (1/2) else entry + atr_adj * (1/2)
    ⟨sc.1, sc.2, some entry, some target, some invalidation⟩

/-- `generate_signals(df, forecast)` (lines 80-113).  `df.iloc[-1]` and
`df["Close"].iloc[-2]` raise `IndexError` in pandas when fewer than two
rows are present; that crash is modelled by the `none` result. -/
def generate_signals (cfg : Config) (df : List Row) (forecast : Option ℚ) : Option SignalResult :=
  match df.getLast?, df.dropLast.getLast? with
  | some latest, some prev => some (signalCore cfg latest prev forecast)
  | _, _ => none

/-- `generate_signals` under exact pandas semantics for line 98: the gate
(lines 90-92) is evaluated first and can still return the DO_NOT_TRADE
tuple, but on the scoring path `forecast and ...` evaluates the truthiness
of the forecast dataframe, and `bool(DataFrame)` raises `ValueError`
whenever a forecast is present, so the invocation propagates an exception
(modelled by `none`) instead of returning a label; with no forecast the
test is falsy, line 98 contributes `-1`, and the function agrees with
`generate_signals`. -/
def generate_signals_pandas (cfg : Config) (df : List Row) (forecast : Option ℚ) :
    Option SignalResult :=
  match df.getLast?, df.dropLast.getLast? with
  | some latest, some prev =>
    if do_not_trade latest prev then
      some ⟨.DO_NOT_TRADE, "High volatility or choppy", none, none, none⟩
    else
      match forecast with
      | some _ => none
      | none => some (signalCore cfg latest prev none)
  | _, _ => none

/-- Bullishness order on the directional labels:
SHORT < SHORT (Cautious) < LONG (Cautious) < LONG. -/
def bullishRank : Signal → ℕ
  | .SHORT => 0
  | .SHORT_Cautious => 1
  | .LONG_Cautious => 2
  | .LONG => 3
  | _ => 0

/-- Mirror across the bullish/bearish midpoint. -/
def mirrorSignal : Signal → Signal
  | .LONG => .SHORT
  | .LONG_Cautious => .SHORT_Cautious
  | .SHORT => .LONG
  | .SHORT_Cautious => .LONG_Cautious
  | s => s

/-- On a two-row dataframe the last and second-to-last rows are the second
and the first. -/
theorem generate_signals_pair (cfg : Config) (p l : Row) (f : Option ℚ) :
    generate_signals cfg [p, l] f = some (signalCore cfg l p f) := rfl

/-- Unfolding lemma: on a dataframe whose last two rows are known,
`generate_signals` runs the core on them. -/
theorem generate_signals_eq_some (cfg : Config) (df : List Row) (f : Option ℚ) (l p : Row)
    (hl : df.getLast? = some l) (hp : df.dropLast.getLast? = some p) :
    generate_signals cfg df f = some (signalCore cfg l p f) := by
  unfold generate_signals
  rw [hl, hp]

/-- Inversion: a `some` result of `generate_signals` comes from the core
applied to the last two rows. -/
theorem generate_signals_some_inv (cfg : Config) (df : List Row) (f : Option ℚ) (r : SignalResult)
    (h : generate_signals cfg df f = some r) :
    ∃ l p, df.getLast? = some l ∧ df.dropLast.getLast? = some p ∧ r = signalCore cfg l p f := by
  unfold generate_signals at h
  split at h
  · rename_i latest prev hl hp
    exact ⟨latest, prev, hl, hp, (Option.some.inj h).symm⟩
  · simp at h

/-- The gated branch of the core. -/
theorem signalCore_gated (cfg : Config) (l p : Row) (f : Option ℚ) (h : do_not_trade l p) :
    signalCore cfg l p f = ⟨.DO_NOT_TRADE, "High volatility or choppy", none, none, none⟩ := by
  rw [signalCore, if_pos h]

/-- The scoring branch of the core, written out. -/
theorem signalCore_not_gated (cfg : Config) (l p : Row) (f : Option ℚ) (h : ¬ do_not_trade l p) :
    signalCore cfg l p f =
      ⟨(label (score l p f)).1, (label (score l p f)).2, some l.Close,
        some (if (label (score l p f)).1.containsLONG then l.Close + l.ATR * cfg.risk_tolerance
          else l.Close - l.ATR * cfg.risk_tolerance),
        some (if (label (score l p f)).1.containsLONG then l.Close - l.ATR * cfg.risk_tolerance * (1/2)
          else l.Close + l.ATR * cfg.risk_tolerance * (1/2))⟩ := by
  rw [signalCore, if_neg h]

/-- Each of the four score terms is `1` or `-1`, so the total is an even
integer between `-4` and `4`. -/
theorem score_mem (l p : Row) (f : Option ℚ) :
    score l p f = -4 ∨ score l p f = -2 ∨ score l p f = 0 ∨ score l p f = 2 ∨ score l p f = 4 := by
  unfold score
  split_ifs <;> omega

/-- With no forecast the fourth term is `-1`, so the score is at most `2`. -/
theorem score_none_le_two (l p : Row) : score l p none ≤ 2 := by
  have h : ¬ forecastBullish none l.Close := fun hf => hf
  unfold score
  rw [if_neg h]
  split_ifs <;> omega

/-- A `±1` term built from a condition flips sign when the condition is
negated. -/
theorem ite_pm_neg (c c' : Prop) [Decidable c] [Decidable c'] (h : c ↔ ¬ c') :
    (if c' then (1 : ℤ) else -1) = - (if c then (1 : ℤ) else -1) := by
  by_cases hc : c
  · rw [if_neg (h.mp hc), if_pos hc]
  · rw [if_pos (not_not.mp fun hn => hc (h.mpr hn)), if_neg hc]
    norm_num

/-- Negating every contributing condition negates the score. -/
theorem score_neg (l p l' p' : Row) (f f' : Option ℚ)
    (h1 : (l.EMA_Fast > l.EMA_Slow) ↔ ¬ (l'.EMA_Fast > l'.EMA_Slow))
    (h2 : (recent_return l p > 0) ↔ ¬ (recent_return l' p' > 0))
    (h3 : (l.MACD > 0) ↔ ¬ (l'.MACD > 0))
    (h4 : (forecastBullish f l.Close) ↔ ¬ (forecastBullish f' l'.Close)) :
    score l' p' f' = - score l p f := by
  unfold score
  rw [ite_pm_neg _ _ h1, ite_pm_neg _ _ h2, ite_pm_neg _ _ h3, ite_pm_neg _ _ h4]
  ring

/-- The step function is monotone with respect to the bullishness order. -/
theorem bullishRank_label_mono (s t : ℤ) (h : t ≤ s) :
    bullishRank (label t).1 ≤ bullishRank (label s).1 := by
  unfold label
  split_ifs <;> simp_all [bullishRank] <;> omega

/-- Away from a tied score, negating the score mirrors the label. -/
theorem label_neg (s : ℤ) (h : s ≠ 0) : (label (-s)).1 = mirrorSignal (label s).1 := by
  unfold label
  split_ifs <;> simp_all [mirrorSignal] <;> omega

/-- The step function only produces the four directional labels. -/
theorem label_mem (s : ℤ) :
    (label s).1 = Signal.LONG ∨ (label s).1 = Signal.LONG_Cautious
      ∨ (label s).1 = Signal.SHORT ∨ (label s).1 = Signal.SHORT_Cautious := by
  unfold label
  split_ifs <;> simp

/-- Scores at most `2` never reach the LONG cutoff at `3`. -/
theorem label_not_LONG_of_le_two (s : ℤ) (h : s ≤ 2) : (label s).1 ≠ Signal.LONG := by
  unfold label
  split_ifs <;> simp_all <;> omega

/-- The tied score maps to SHORT (Cautious). -/
theorem label_zero : (label 0).1 = Signal.SHORT_Cautious := by decide

/-- C2: for every pair of non-gated inputs, a greater-or-equal integer
score yields an equal-or-more-bullish label under the order
SHORT < SHORT (Cautious) < LONG (Cautious) < LONG. -/
theorem label_monotone_in_score (l1 p1 l2 p2 : Row) (f1 f2 : Option ℚ)
    (hg1 : ¬ do_not_trade l1 p1) (hg2 : ¬ do_not_trade l2 p2)
    (h : score l2 p2 f2 ≤ score l1 p1 f1) :
    bullishRank (label (score l2 p2 f2)).1 ≤ bullishRank (label (score l1 p1 f1)).1 :=
  bullishRank_label_mono _ _ h

/-- Witness for C2: a non-gated all-bearish input (score `-4`, SHORT) against
a non-gated input of score `2` (LONG (Cautious)). -/
theorem label_monotone_in_score_witness :
    bullishRank (label (score ⟨999/10, 99, 100, 1/10, 50, -1⟩ ⟨100, 100, 100, 1/10, 50, 0⟩ none)).1
      ≤ bullishRank (label (score ⟨1001/10, 101, 100, 1/10, 50, 1⟩ ⟨100, 100, 100, 1/10, 50, 0⟩ none)).1 :=
  label_monotone_in_score ⟨1001/10, 101, 100, 1/10, 50, 1⟩ ⟨100, 100, 100, 1/10, 50, 0⟩
    ⟨999/10, 99, 100, 1/10, 50, -1⟩ ⟨100, 100, 100, 1/10, 50, 0⟩ none none
    (by norm_num [do_not_trade, recent_return, abs_lt])
    (by norm_num [do_not_trade, recent_return, abs_lt])
    (by norm_num [score, recent_return, forecastBullish])

/-- C3: whenever a gating precondition holds (ATR over latest close above
the `0.005` threshold, or one-step return magnitude below `0.0003`),
`generate_signals` returns DO_NOT_TRADE with no entry, target or
invalidation. -/
theorem gating_returns_do_not_trade (cfg : Config) (df : List Row) (f : Option ℚ) (l p : Row)
    (hl : df.getLast? = some l) (hp : df.dropLast.getLast? = some p)
    (hgate : l.ATR / l.Close > 5/1000 ∨ |recent_return l p| < 3/10000) :
    generate_signals cfg df f
      = some ⟨.DO_NOT_TRADE, "High volatility or choppy", none, none, none⟩ := by
  rw [generate_signals_eq_some cfg df f l p hl hp]
  rw [signalCore_gated cfg l p f hgate]

/-- Witness for C3: ATR `2` against close `105` trips the volatility gate. -/
theorem gating_returns_do_not_trade_witness :
    generate_signals ⟨1⟩ [⟨104, 100, 100, 2, 50, 1⟩, ⟨105, 105, 100, 2, 50, 1⟩] none
      = some ⟨.DO_NOT_TRADE, "High volatility or choppy", none, none, none⟩ :=
  gating_returns_do_not_trade ⟨1⟩ [⟨104, 100, 100, 2, 50, 1⟩, ⟨105, 105, 100, 2, 50, 1⟩] none
    ⟨105, 105, 100, 2, 50, 1⟩ ⟨104, 100, 100, 2, 50, 1⟩ rfl rfl (Or.inl (by norm_num))

/-- C8: the scorer is a deterministic function of the dataframe, the
forecast and the configuration: equal inputs give equal five-tuples. -/
theorem generate_signals_deterministic (cfg cfg' : Config) (df df' : List Row) (f f' : Option ℚ)
    (hc : cfg = cfg') (hd : df = df') (hf : f = f') :
    generate_signals cfg df f = generate_signals cfg' df' f' := by
  rw [hc, hd, hf]

/-- Witness for C8 at a concrete two-row dataframe. -/
theorem generate_signals_deterministic_witness :
    generate_signals ⟨1⟩ [⟨104, 100, 100, 2, 50, 1⟩, ⟨105, 105, 100, 2, 50, 1⟩] none
      = generate_signals ⟨1⟩ [⟨104, 100, 100, 2, 50, 1⟩, ⟨105, 105, 100, 2, 50, 1⟩] none :=
  generate_signals_deterministic ⟨1⟩ ⟨1⟩
    [⟨104, 100, 100, 2, 50, 1⟩, ⟨105, 105, 100, 2, 50, 1⟩]
    [⟨104, 100, 100, 2, 50, 1⟩, ⟨105, 105, 100, 2, 50, 1⟩] none none rfl rfl rfl

/-- Agreement lemma: with no forecast, line 98's truthiness test is falsy
in pandas as well, so the exact model and the totalized model coincide. -/
theorem generate_signals_pandas_none (cfg : Config) (df : List Row) :
    generate_signals_pandas cfg df none = generate_signals cfg df none := by
  unfold generate_signals_pandas generate_signals
  cases df.getLast? with
  | none => rfl
  | some l =>
    cases df.dropLast.getLast? with
    | none => rfl
    | some p =>
      by_cases hg : do_not_trade l p
      · simp [signalCore, hg]
      · simp [signalCore, hg]

/-- C1 counterexample: a non-gated invocation with a forecast present never
returns a label at all (line 98 raises on the forecast dataframe's
truthiness), so the only invocations that realize the claim carry no
forecast and exactly three contributing signs.  Two such non-gated inputs
with those three signs pointwise negated (scores `0` and `-2`) both
complete, and both map to SHORT (Cautious): the mirrored input's label is
not the mirror of the original's. -/
theorem sign_symmetry_counterexample :
    ¬ do_not_trade ⟨1001/10, 101, 100, 1/10, 50, -1⟩ ⟨100, 100, 100, 1/10, 50, 0⟩
    ∧ ¬ do_not_trade ⟨999/10, 99, 100, 1/10, 50, 1⟩ ⟨100, 100, 100, 1/10, 50, 0⟩
    ∧ ((Row.EMA_Fast ⟨1001/10, 101, 100, 1/10, 50, -1⟩ > Row.EMA_Slow ⟨1001/10, 101, 100, 1/10, 50, -1⟩)
        ↔ ¬ (Row.EMA_Fast ⟨999/10, 99, 100, 1/10, 50, 1⟩ > Row.EMA_Slow ⟨999/10, 99, 100, 1/10, 50, 1⟩))
    ∧ ((recent_return ⟨1001/10, 101, 100, 1/10, 50, -1⟩ ⟨100, 100, 100, 1/10, 50, 0⟩ > 0)
        ↔ ¬ (recent_return ⟨999/10, 99, 100, 1/10, 50, 1⟩ ⟨100, 100, 100, 1/10, 50, 0⟩ > 0))
    ∧ ((Row.MACD ⟨1001/10, 101, 100, 1/10, 50, -1⟩ > 0)
        ↔ ¬ (Row.MACD ⟨999/10, 99, 100, 1/10, 50, 1⟩ > 0))
    ∧ generate_signals_pandas ⟨1⟩
        [⟨100, 100, 100, 1/10, 50, 0⟩, ⟨1001/10, 101, 100, 1/10, 50, -1⟩] none
        = some ⟨.SHORT_Cautious, "Medium", some (1001/10), some 100, some (2003/20)⟩
    ∧ generate_signals_pandas ⟨1⟩
        [⟨100, 100, 100, 1/10, 50, 0⟩, ⟨999/10, 99, 100, 1/10, 50, 1⟩] none
        = some ⟨.SHORT_Cautious, "Medium", some (999/10), some (499/5), some (1999/20)⟩
    ∧ Signal.SHORT_Cautious ≠ mirrorSignal Signal.SHORT_Cautious := by
  have hgA : ¬ do_not_trade ⟨1001/10, 101, 100, 1/10, 50, -1⟩ ⟨100, 100, 100, 1/10, 50, 0⟩ := by
    norm_num [do_not_trade, recent_return, abs_lt]
  have hgB : ¬ do_not_trade ⟨999/10, 99, 100, 1/10, 50, 1⟩ ⟨100, 100, 100, 1/10, 50, 0⟩ := by
    norm_num [do_not_trade, recent_return, abs_lt]
  have hsA : score ⟨1001/10, 101, 100, 1/10, 50, -1⟩ ⟨100, 100, 100, 1/10, 50, 0⟩ none = 0 := by
    norm_num [score, recent_return, forecastBullish]
  have hsB : score ⟨999/10, 99, 100, 1/10, 50, 1⟩ ⟨100, 100, 100, 1/10, 50, 0⟩ none = -2 := by
    norm_num [score, recent_return, forecastBullish]
  refine ⟨hgA, hgB, by norm_num, by norm_num [recent_return], by norm_num, ?_, ?_, by decide⟩
  · rw [generate_signals_pandas_none, generate_signals_pair, signalCore, if_neg hgA, hsA]
    norm_num [label, Signal.containsLONG]
  · rw [generate_signals_pandas_none, generate_signals_pair, signalCore, if_neg hgB, hsB]
    norm_num [label, Signal.containsLONG]

/-- C1 amended: sign symmetry over all four contributing inputs is not
realizable — every non-gated invocation with a present forecast raises at
line 98 and returns no label — and on the completing no-forecast path the
constant `-1` forecast term breaks input-sign symmetry (see the
counterexample).  What does hold is the mirror symmetry of the
score-to-label mapping itself, away from the tied score: for every
nonzero score `s`, the label of `-s` is the mirror of the label of `s`. -/
theorem sign_symmetry_amended :
    (∀ (cfg : Config) (df : List Row) (l p : Row) (y : ℚ),
        df.getLast? = some l → df.dropLast.getLast? = some p →
        ¬ do_not_trade l p →
        generate_signals_pandas cfg df (some y) = none)
    ∧ (∀ s : ℤ, s ≠ 0 → (label (-s)).1 = mirrorSignal (label s).1) := by
  constructor
  · intro cfg df l p y hl hp hg
    simp [generate_signals_pandas, hl, hp, hg]
  · intro s hs
    exact label_neg s hs

/-- Witness for the amended C1: a concrete non-gated two-row dataframe
with a present forecast yields no label (the raise), and the labels of
scores `2` and `-2` mirror each other. -/
theorem sign_symmetry_amended_witness :
    generate_signals_pandas ⟨1⟩
      [⟨100, 100, 100, 1/10, 50, 0⟩, ⟨1001/10, 101, 100, 1/10, 50, -1⟩] (some 100) = none
    ∧ (label (-2)).1 = mirrorSignal (label 2).1 :=
  ⟨sign_symmetry_amended.1 ⟨1⟩
      [⟨100, 100, 100, 1/10, 50, 0⟩, ⟨1001/10, 101, 100, 1/10, 50, -1⟩]
      ⟨1001/10, 101, 100, 1/10, 50, -1⟩ ⟨100, 100, 100, 1/10, 50, 0⟩ 100 rfl rfl
      (by norm_num [do_not_trade, recent_return, abs_lt]),
    sign_symmetry_amended.2 2 (by norm_num)⟩

/-- C9: for every non-gated input the score is one of `{-4, -2, 0, 2, 4}`,
the returned label is one of the four directional labels, NEUTRAL is
never produced, and a tied score of `0` gives SHORT (Cautious). -/
theorem score_parity_and_directional_labels (cfg : Config) (df : List Row) (f : Option ℚ)
    (l p : Row) (hl : df.getLast? = some l) (hp : df.dropLast.getLast? = some p)
    (hgate : ¬ do_not_trade l p) :
    (score l p f = -4 ∨ score l p f = -2 ∨ score l p f = 0 ∨ score l p f = 2 ∨ score l p f = 4)
    ∧ ∃ r : SignalResult, generate_signals cfg df f = some r
        ∧ (r.signal = Signal.LONG ∨ r.signal = Signal.LONG_Cautious
            ∨ r.signal = Signal.SHORT ∨ r.signal = Signal.SHORT_Cautious)
        ∧ r.signal ≠ Signal.NEUTRAL
        ∧ (score l p f = 0 → r.signal = Signal.SHORT_Cautious) := by
  refine ⟨score_mem l p f, signalCore cfg l p f, generate_signals_eq_some cfg df f l p hl hp,
    ?_, ?_, ?_⟩
  · rw [signalCore_not_gated cfg l p f hgate]
    exact label_mem (score l p f)
  · rw [signalCore_not_gated cfg l p f hgate]
    rcases label_mem (score l p f) with h | h | h | h <;>
      · show (label (score l p f)).1 ≠ Signal.NEUTRAL
        rw [h]
        decide
  · intro h0
    rw [signalCore_not_gated cfg l p f hgate]
    show (label (score l p f)).1 = Signal.SHORT_Cautious
    rw [h0]
    exact label_zero

/-- Witness for C9 at a non-gated input of score `2`. -/
theorem score_parity_and_directional_labels_witness :
    (score ⟨1001/10, 101, 100, 1/10, 50, 1⟩ ⟨100, 100, 100, 1/10, 50, 0⟩ none = -4
      ∨ score ⟨1001/10, 101, 100, 1/10, 50, 1⟩ ⟨100, 100, 100, 1/10, 50, 0⟩ none = -2
      ∨ score ⟨1001/10, 101, 100, 1/10, 50, 1⟩ ⟨100, 100, 100, 1/10, 50, 0⟩ none = 0
      ∨ score ⟨1001/10, 101, 100, 1/10, 50, 1⟩ ⟨100, 100, 100, 1/10, 50, 0⟩ none = 2
      ∨ score ⟨1001/10, 101, 100, 1/10, 50, 1⟩ ⟨100, 100, 100, 1/10, 50, 0⟩ none = 4)
    ∧ ∃ r : SignalResult,
        generate_signals ⟨1⟩ [⟨100, 100, 100, 1/10, 50, 0⟩, ⟨1001/10, 101, 100, 1/10, 50, 1⟩] none
          = some r
        ∧ (r.signal = Signal.LONG ∨ r.signal = Signal.LONG_Cautious
            ∨ r.signal = Signal.SHORT ∨ r.signal = Signal.SHORT_Cautious)
        ∧ r.signal ≠ Signal.NEUTRAL
        ∧ (score ⟨1001/10, 101, 100, 1/10, 50, 1⟩ ⟨100, 100, 100, 1/10, 50, 0⟩ none = 0
            → r.signal = Signal.SHORT_Cautious) :=
  score_parity_and_directional_labels ⟨1⟩
    [⟨100, 100, 100, 1/10, 50, 0⟩, ⟨1001/10, 101, 100, 1/10, 50, 1⟩] none
    ⟨1001/10, 101, 100, 1/10, 50, 1⟩ ⟨100, 100, 100, 1/10, 50, 0⟩ rfl rfl
    (by norm_num [do_not_trade, recent_return, abs_lt])

/-- C10: with no forecast the score is at most `2`, so the LONG label
(cutoff `3`) is unreachable, while the SHORT label (cutoff `-3`) is
reached, e.g. by an all-bearish non-gated input. -/
theorem no_forecast_asymmetry :
    (∀ l p : Row, score l p none ≤ 2)
    ∧ (∀ (cfg : Config) (df : List Row) (r : SignalResult),
        generate_signals cfg df none = some r → r.signal ≠ Signal.LONG)
    ∧ ∃ (cfg : Config) (df : List Row) (r : SignalResult),
        generate_signals cfg df none = some r ∧ r.signal = Signal.SHORT := by
  refine ⟨score_none_le_two, ?_, ?_⟩
  · intro cfg df r h
    obtain ⟨l, p, hl, hp, hr⟩ := generate_signals_some_inv cfg df none r h
    by_cases hg : do_not_trade l p
    · rw [hr, signalCore_gated cfg l p none hg]
      decide
    · rw [hr, signalCore_not_gated cfg l p none hg]
      exact label_not_LONG_of_le_two _ (score_none_le_two l p)
  · have hg : ¬ do_not_trade ⟨999/10, 99, 100, 1/10, 50, -1⟩ ⟨100, 100, 100, 1/10, 50, 0⟩ := by
      norm_num [do_not_trade, recent_return, abs_lt]
    have hs : score ⟨999/10, 99, 100, 1/10, 50, -1⟩ ⟨100, 100, 100, 1/10, 50, 0⟩ none = -4 := by
      norm_num [score, recent_return, forecastBullish]
    refine ⟨⟨1⟩, [⟨100, 100, 100, 1/10, 50, 0⟩, ⟨999/10, 99, 100, 1/10, 50, -1⟩],
      signalCore ⟨1⟩ ⟨999/10, 99, 100, 1/10, 50, -1⟩ ⟨100, 100, 100, 1/10, 50, 0⟩ none,
      generate_signals_pair _ _ _ _, ?_⟩
    rw [signalCore_not_gated _ _ _ _ hg]
    show (label (score ⟨999/10, 99, 100, 1/10, 50, -1⟩ ⟨100, 100, 100, 1/10, 50, 0⟩ none)).1
      = Signal.SHORT
    rw [hs]
    decide

/-- Witness for C10: the universally quantified part applied to a concrete
all-bearish dataframe whose signal is SHORT, hence not LONG. -/
theorem no_forecast_asymmetry_witness :
    (signalCore ⟨1⟩ ⟨999/10, 99, 100, 1/10, 50, -1⟩ ⟨100, 100, 100, 1/10, 50, 0⟩ none).signal
      ≠ Signal.LONG :=
  no_forecast_asymmetry.2.1 ⟨1⟩
    [⟨100, 100, 100, 1/10, 50, 0⟩, ⟨999/10, 99, 100, 1/10, 50, -1⟩] _
    (generate_signals_pair _ _ _ _)


/-- C4 counterexample: a non-gated LONG-side input with ATR `0` (close
`100`, previous close `99`, all three available contributions bullish, no
forecast) gives `target = entry = invalidation = 100`, so the target is
not strictly farther from the entry than the invalidation, although the
stop fraction `0.5` is strictly below `1`. -/
theorem target_vs_invalidation_counterexample :
    generate_signals ⟨1⟩ [⟨99, 100, 100, 0, 50, 0⟩, ⟨100, 101, 100, 0, 50, 1⟩] none
      = some ⟨.LONG_Cautious, "Medium", some 100, some 100, some 100⟩
    ∧ ((1 : ℚ)/2 < 1)
    ∧ ¬ ((100 : ℚ) < 100) := by
  refine ⟨?_, by norm_num, by norm_num⟩
  rw [generate_signals_pair]
  have hg : ¬ do_not_trade ⟨100, 101, 100, 0, 50, 1⟩ ⟨99, 100, 100, 0, 50, 0⟩ := by
    norm_num [do_not_trade, recent_return, abs_lt]
  have hs : score ⟨100, 101, 100, 0, 50, 1⟩ ⟨99, 100, 100, 0, 50, 0⟩ none = 2 := by
    norm_num [score, recent_return, forecastBullish]
  rw [signalCore, if_neg hg, hs]
  norm_num [label, Signal.containsLONG]

/-- C4 amended: whenever the ATR-derived step `ATR * risk_tolerance` is
strictly positive, a non-gated trade signal has its target strictly
farther from the entry than the invalidation in the trade's direction
(LONG side: `target > entry > invalidation`; SHORT side mirrored), with
the reward gap strictly exceeding the risk gap. -/
theorem target_vs_invalidation_amended (cfg : Config) (df : List Row) (f : Option ℚ)
    (l p : Row) (r : SignalResult) (e t i : ℚ)
    (hl : df.getLast? = some l) (hp : df.dropLast.getLast? = some p)
    (hr : generate_signals cfg df f = some r)
    (hpos : 0 < l.ATR * cfg.risk_tolerance)
    (hsig : r.signal ≠ Signal.DO_NOT_TRADE)
    (he : r.entry = some e) (ht : r.target = some t) (hi : r.invalidation = some i) :
    (r.signal.containsLONG = true → t > e ∧ e > i ∧ t - e > e - i)
    ∧ (r.signal.containsLONG = false → t < e ∧ e < i ∧ e - t > i - e) := by
  rw [generate_signals_eq_some cfg df f l p hl hp] at hr
  obtain rfl : r = signalCore cfg l p f := (Option.some.inj hr).symm
  by_cases hg : do_not_trade l p
  · rw [signalCore_gated cfg l p f hg] at hsig
    exact absurd rfl hsig
  · have hsc := signalCore_not_gated cfg l p f hg
    cases hb : (label (score l p f)).1.containsLONG with
    | false =>
      have he' : l.Close = e := by rw [hsc] at he; simpa using he
      have ht' : l.Close - l.ATR * cfg.risk_tolerance = t := by
        rw [hsc] at ht; simpa [hb] using ht
      have hi' : l.Close + l.ATR * cfg.risk_tolerance * (1/2) = i := by
        rw [hsc] at hi; simpa [hb] using hi
      constructor
      · intro htl
        rw [hsc] at htl
        simp [hb] at htl
      · intro _
        refine ⟨by linarith, by linarith, by linarith⟩
    | true =>
      have he' : l.Close = e := by rw [hsc] at he; simpa using he
      have ht' : l.Close + l.ATR * cfg.risk_tolerance = t := by
        rw [hsc] at ht; simpa [hb] using ht
      have hi' : l.Close - l.ATR * cfg.risk_tolerance * (1/2) = i := by
        rw [hsc] at hi; simpa [hb] using hi
      constructor
      · intro _
        refine ⟨by linarith, by linarith, by linarith⟩
      · intro hfl
        rw [hsc] at hfl
        simp [hb] at hfl

/-- Witness for the amended C4: positive ATR step, LONG (Cautious) signal,
entry `100.1`, target `100.2`, invalidation `100.05`. -/
theorem target_vs_invalidation_amended_witness :
    ((SignalResult.mk Signal.LONG_Cautious "Medium" (some (1001/10)) (some (501/5))
        (some (2001/20))).signal.containsLONG = true
      → (501/5 : ℚ) > 1001/10 ∧ (1001/10 : ℚ) > 2001/20
        ∧ (501/5 : ℚ) - 1001/10 > (1001/10 : ℚ) - 2001/20)
    ∧ ((SignalResult.mk Signal.LONG_Cautious "Medium" (some (1001/10)) (some (501/5))
        (some (2001/20))).signal.containsLONG = false
      → (501/5 : ℚ) < 1001/10 ∧ (1001/10 : ℚ) < 2001/20
        ∧ (1001/10 : ℚ) - 501/5 > (2001/20 : ℚ) - 1001/10) :=
  target_vs_invalidation_amended ⟨1⟩
    [⟨100, 100, 100, 1/10, 50, 0⟩, ⟨1001/10, 101, 100, 1/10, 50, 1⟩] none
    ⟨1001/10, 101, 100, 1/10, 50, 1⟩ ⟨100, 100, 100, 1/10, 50, 0⟩
    (SignalResult.mk Signal.LONG_Cautious "Medium" (some (1001/10)) (some (501/5)) (some (2001/20)))
    (1001/10) (501/5) (2001/20) rfl rfl
    (by
      rw [generate_signals_pair]
      have hg : ¬ do_not_trade ⟨1001/10, 101, 100, 1/10, 50, 1⟩ ⟨100, 100, 100, 1/10, 50, 0⟩ := by
        norm_num [do_not_trade, recent_return, abs_lt]
      have hs : score ⟨1001/10, 101, 100, 1/10, 50, 1⟩ ⟨100, 100, 100, 1/10, 50, 0⟩ none = 2 := by
        norm_num [score, recent_return, forecastBullish]
      rw [signalCore, if_neg hg, hs]
      norm_num [label, Signal.containsLONG])
    (by norm_num) (by decide) rfl rfl rfl

/-- C5 counterexample: on the spec's worked example (fast EMA `105`, slow
EMA `100`, close `105`, previous close `104`, ATR `2`, risk multiplier
`1`, no forecast) the volatility gate fires (`2/105 > 0.005`), so the
code returns DO_NOT_TRADE with no levels — not LONG with target `107`
and invalidation `103.5`. -/
theorem worked_example_counterexample :
    generate_signals ⟨1⟩ [⟨104, 104, 100, 2, 50, 1⟩, ⟨105, 105, 100, 2, 50, 1⟩] none
      = some ⟨.DO_NOT_TRADE, "High volatility or choppy", none, none, none⟩
    ∧ Signal.DO_NOT_TRADE ≠ Signal.LONG := by
  refine ⟨?_, by decide⟩
  rw [generate_signals_pair]
  exact congrArg some (signalCore_gated ⟨1⟩ ⟨105, 105, 100, 2, 50, 1⟩ ⟨104, 104, 100, 2, 50, 1⟩
    none (Or.inl (by norm_num)))

/-- C5 amended: on that input the gating precondition
`ATR / close > 0.005` holds, so the scorer short-circuits to
DO_NOT_TRADE and returns no entry, target or invalidation. -/
theorem worked_example_amended :
    do_not_trade ⟨105, 105, 100, 2, 50, 1⟩ ⟨104, 104, 100, 2, 50, 1⟩
    ∧ generate_signals ⟨1⟩ [⟨104, 104, 100, 2, 50, 1⟩, ⟨105, 105, 100, 2, 50, 1⟩] none
      = some ⟨.DO_NOT_TRADE, "High volatility or choppy", none, none, none⟩ := by
  have hg : do_not_trade ⟨105, 105, 100, 2, 50, 1⟩ ⟨104, 104, 100, 2, 50, 1⟩ :=
    Or.inl (by norm_num)
  exact ⟨hg, by
    rw [generate_signals_pair]
    exact congrArg some (signalCore_gated ⟨1⟩ ⟨105, 105, 100, 2, 50, 1⟩
      ⟨104, 104, 100, 2, 50, 1⟩ none hg)⟩

/-- C6: on a one-bar dataframe the code hits the out-of-range
`df["Close"].iloc[-2]` access (modelled by the `none` result, i.e. the
pandas `IndexError`) instead of reporting an "insufficient data" signal;
likewise on an empty dataframe. -/
theorem insufficient_data_crash :
    generate_signals ⟨1⟩ [⟨100, 100, 100, 1, 50, 0⟩] none = none
    ∧ generate_signals ⟨1⟩ [] none = none :=
  ⟨rfl, rfl⟩

/-- C7 counterexample: a non-gated input with all three available
contributions bullish and no forecast scores `2`, not the `3` the claim's
"sum of only the EMA, return and MACD contributions" predicts: the
missing forecast itself contributes `-1`. -/
theorem forecast_optional_counterexample :
    Row.EMA_Fast ⟨1001/10, 101, 100, 1/10, 50, 1⟩ > Row.EMA_Slow ⟨1001/10, 101, 100, 1/10, 50, 1⟩
    ∧ recent_return ⟨1001/10, 101, 100, 1/10, 50, 1⟩ ⟨100, 100, 100, 1/10, 50, 0⟩ > 0
    ∧ Row.MACD ⟨1001/10, 101, 100, 1/10, 50, 1⟩ > 0
    ∧ ¬ do_not_trade ⟨1001/10, 101, 100, 1/10, 50, 1⟩ ⟨100, 100, 100, 1/10, 50, 0⟩
    ∧ score ⟨1001/10, 101, 100, 1/10, 50, 1⟩ ⟨100, 100, 100, 1/10, 50, 0⟩ none = 2
    ∧ score ⟨1001/10, 101, 100, 1/10, 50, 1⟩ ⟨100, 100, 100, 1/10, 50, 0⟩ none ≠ 1 + 1 + 1 :=
  ⟨by norm_num, by norm_num [recent_return], by norm_num,
    by norm_num [do_not_trade, recent_return, abs_lt],
    by norm_num [score, recent_return, forecastBullish],
    by norm_num [score, recent_return, forecastBullish]⟩

/-- C7 amended: when no forecast is available the score is the sum of the
EMA, return and MACD contributions minus one — the forecast term always
contributes `-1` in that case. -/
theorem forecast_absent_contributes_minus_one (l p : Row) :
    score l p none
      = (if l.EMA_Fast > l.EMA_Slow then (1 : ℤ) else -1)
        + (if recent_return l p > 0 then 1 else -1)
        + (if l.MACD > 0 then 1 else -1)
        - 1 := by
  have h : ¬ forecastBullish none l.Close := fun hf => hf
  unfold score
  rw [if_neg h]
  ring
